import Mathlib

/-!
Verification development for the CACHETRON cache library core.

The TypeScript source is shallowly embedded in Lean 4:

* JavaScript numbers are modelled as rationals (`ℚ`).  Every rational is
  finite, so JS guards of the form `isFinite x` are identically true in the
  model and the corresponding branches simplify accordingly; this is noted at
  each definition it affects.
* `Math.round`, `Number.prototype.toFixed` and `Math.max(0, ·)` are given
  exact rational models (`jsRound`, `jsToFixed`, `max 0 ·`).
* Fallible backend calls are modelled with `Except`/`Option`-valued behaviour
  functions supplied as parameters; `try`/`catch` blocks become pattern
  matches on those results.
* The mutable key/value content of a backend is modelled as an association
  list with front insertion (`insertStore`/`lookupStore`), matching
  last-write-wins lookup semantics.
-/

namespace Cachetron

/-- Model of JS `Math.round`: nearest integer, ties round toward `+∞`,
which is exactly `⌊x + 1/2⌋`. -/
def jsRound (q : ℚ) : ℤ := ⌊q + 1/2⌋

/-- Model of `Number(value.toFixed(d))`: round to `d` decimal places; on a
tie ECMAScript `toFixed` picks the larger candidate, i.e. `⌊x·10^d + 1/2⌋ / 10^d`. -/
def jsToFixed (d : ℕ) (q : ℚ) : ℚ := (⌊q * 10 ^ d + 1/2⌋ : ℚ) / 10 ^ d

/-! ### TTL predictor — `predictLinearRegression` (src/unnamed/part_002) -/

/-- Coefficient record of the fixed linear model (source lines 10–17). -/
structure ModelCoefficients where
  hit_ratio : ℚ
  miss_ratio : ℚ
  cache_size : ℚ
  data_change_rate : ℚ
  intercept : ℚ

/-- Model coefficients (source lines 20–26). -/
def coefficients : ModelCoefficients :=
  { hit_ratio := 1501.178899
    miss_ratio := -1501.178899
    cache_size := 0.297697
    data_change_rate := -399.212876
    intercept := 0 }

/-- Feature record consumed by the predictor (source lines 3–8). -/
structure MLCacheMetrics where
  hitRatioLifetime : ℚ
  missRatioLifetime : ℚ
  cacheSize : ℚ
  dataChangeRate : ℚ

/-- The raw linear form computed first in `predictLinearRegression`
(source lines 30–35, the initial value of the local `prediction`). -/
def rawPrediction (m : MLCacheMetrics) : ℚ :=
  coefficients.hit_ratio * m.hitRatioLifetime +
  coefficients.miss_ratio * m.missRatioLifetime +
  coefficients.cache_size * m.cacheSize +
  coefficients.data_change_rate * m.dataChangeRate +
  coefficients.intercept

/-- Embedding of `predictLinearRegression` (source lines 28–44).  In the
rational model every value is finite, so the JS test
`!isFinite(prediction) || prediction <= 0` reduces to `prediction ≤ 0`.
Inside that branch the source replaces `prediction` by `Math.abs(prediction)`
and, still inside the same branch, bumps values below 60 up to 60; a positive
finite prediction skips the branch entirely.  Finally `Math.round` is applied. -/
def predictLinearRegression (m : MLCacheMetrics) : ℤ :=
  jsRound
    (if rawPrediction m ≤ 0 then
      (if |rawPrediction m| < 60 then 60 else |rawPrediction m|)
    else rawPrediction m)

/-- C1 counterexample: at the feature vector `[0, 0, 100, 0]` the raw linear
form is `29.7697 > 0`, the clamping branch is skipped, and the predictor
returns `30`, which is not `≥ 60`; so the output is not always `≥ 60`. -/
theorem predict_not_always_ge_60 :
    predictLinearRegression ⟨0, 0, 100, 0⟩ = 30 ∧
    ¬ (60 ≤ predictLinearRegression ⟨0, 0, 100, 0⟩) := by
  have h : predictLinearRegression ⟨0, 0, 100, 0⟩ = 30 := by
    norm_num [predictLinearRegression, rawPrediction, coefficients, jsRound]
  exact ⟨h, by rw [h]; norm_num⟩

/-- C1 (amended): the absolute-value-then-clamp-to-60 post-processing applies
only when the raw linear result is non-positive (in the rational model the
non-finite case is vacuous); in that case the returned integer is `≥ 60`.
A positive raw result is merely rounded to the nearest integer and may be
below 60. -/
theorem predict_ge_60_iff_branch (m : MLCacheMetrics) :
    (rawPrediction m ≤ 0 → 60 ≤ predictLinearRegression m) ∧
    (0 < rawPrediction m → predictLinearRegression m = jsRound (rawPrediction m)) := by
  constructor
  · intro h
    have hadj : (60 : ℚ) ≤
        (if rawPrediction m ≤ 0 then
          (if |rawPrediction m| < 60 then 60 else |rawPrediction m|)
        else rawPrediction m) := by
      rw [if_pos h]
      by_cases habs : |rawPrediction m| < 60
      · rw [if_pos habs]
      · rw [if_neg habs]; linarith [not_lt.mp habs]
    unfold predictLinearRegression jsRound
    have : (60 : ℚ) ≤
        (if rawPrediction m ≤ 0 then
          (if |rawPrediction m| < 60 then 60 else |rawPrediction m|)
        else rawPrediction m) + 1/2 := by linarith
    calc (60 : ℤ) = ⌊(60 : ℚ)⌋ := by norm_num
    _ ≤ _ := Int.floor_le_floor this
  · intro h
    unfold predictLinearRegression
    rw [if_neg (not_le.mpr h)]

/-- Witness for `predict_ge_60_iff_branch` at the concrete feature vector
`[0, 0, 0, 1]`, whose raw linear result `-399.212876` is non-positive. -/
theorem predict_ge_60_iff_branch_witness :
    rawPrediction ⟨0, 0, 0, 1⟩ ≤ 0 ∧ 60 ≤ predictLinearRegression ⟨0, 0, 0, 1⟩ := by
  have h : rawPrediction ⟨0, 0, 0, 1⟩ ≤ 0 := by
    norm_num [rawPrediction, coefficients]
  exact ⟨h, (predict_ge_60_iff_branch ⟨0, 0, 0, 1⟩).1 h⟩

/-- C9: on the feature vector `[0.8, 0.2, 1024, 0.05]` the raw linear form is
exactly `1185.5884236`, which is positive, so no clamping applies and rounding
to the nearest integer yields `1186`. -/
theorem predict_example_1186 :
    predictLinearRegression ⟨0.8, 0.2, 1024, 0.05⟩ = 1186 := by
  norm_num [predictLinearRegression, rawPrediction, coefficients, jsRound]

/-! ### Factory — `createCacheInstance` / `cachetron` (src/src/cache/factory.ts) -/

/-- Model of JS `String.prototype.toLowerCase` for the ASCII strings at hand. -/
def jsToLowerCase (s : String) : String := String.mk (s.data.map Char.toLower)

/-- A loaded cache configuration.  The `type` and `url` JSON fields may be
absent, which JS sees as `undefined`; absence is modelled with `Option`. -/
structure CacheConfig where
  type : Option String
  url : Option String

/-- JS falsiness of an optional string field: `undefined` and `""` are falsy. -/
def jsFalsy : Option String → Bool
  | none => true
  | some s => s = ""

/-- Reference to a constructed adapter instance, tagged by variant
(`new RedisCache(url)` / `new MemcacheCache(url)`). -/
inductive AdapterRef where
  | redis (url : String)
  | memcache (url : String)
deriving DecidableEq, Repr

/-- Errors thrown by the factory paths. -/
inductive CacheErr where
  | missingTypeOrUrl
  | unknownType (t : String)
deriving DecidableEq, Repr

/-- Embedding of `createCacheInstance` (factory.ts lines 21–32): throw when
`type` or `url` is falsy, then switch on `type.toLowerCase()`; unknown types
throw.  An `Except.error` result models a throw before any adapter value is
produced. -/
def createCacheInstance (config : CacheConfig) : Except CacheErr AdapterRef :=
  if jsFalsy config.type || jsFalsy config.url then
    .error .missingTypeOrUrl
  else
    let t := (config.type).getD ""
    let u := (config.url).getD ""
    if jsToLowerCase t = "redis" then .ok (.redis u)
    else if jsToLowerCase t = "memcache" then .ok (.memcache u)
    else .error (.unknownType t)

/-- Embedding of the exported `cachetron` factory (factory.ts lines 96–103)
given the already-loaded configuration: return the existing singleton if any,
otherwise construct from the configuration with no surrounding `try`/`catch`,
so a construction error propagates to the caller. -/
def cachetron (existing : Option AdapterRef) (config : CacheConfig) :
    Except CacheErr AdapterRef :=
  match existing with
  | some c => .ok c
  | none => createCacheInstance config

/-- C4: an empty `type`, an empty or missing `url`, or a `type` outside the
known variants (after lowercasing) makes `createCacheInstance` throw without
producing an adapter, and with no cached singleton the same error propagates
out of the `cachetron` acquire path. -/
theorem createCacheInstance_config_error (config : CacheConfig)
    (h : jsFalsy config.type = true ∨ jsFalsy config.url = true ∨
      (jsToLowerCase ((config.type).getD "") ≠ "redis" ∧
       jsToLowerCase ((config.type).getD "") ≠ "memcache")) :
    ∃ e, createCacheInstance config = .error e ∧
      cachetron none config = .error e := by
  rcases h with h | h | ⟨h1, h2⟩
  · exact ⟨.missingTypeOrUrl, by simp [createCacheInstance, h, cachetron]⟩
  · exact ⟨.missingTypeOrUrl, by simp [createCacheInstance, h, cachetron]⟩
  · by_cases hf : jsFalsy config.type = true ∨ jsFalsy config.url = true
    · rcases hf with hf | hf
      · exact ⟨.missingTypeOrUrl, by simp [createCacheInstance, hf, cachetron]⟩
      · exact ⟨.missingTypeOrUrl, by simp [createCacheInstance, hf, cachetron]⟩
    · push_neg at hf
      refine ⟨.unknownType ((config.type).getD ""), ?_⟩
      have hf1 : jsFalsy config.type = false := by
        cases hft : jsFalsy config.type
        · rfl
        · exact absurd hft hf.1
      have hf2 : jsFalsy config.url = false := by
        cases hfu : jsFalsy config.url
        · rfl
        · exact absurd hfu hf.2
      constructor
      · simp [createCacheInstance, hf1, hf2, h1, h2]
      · simp [cachetron, createCacheInstance, hf1, hf2, h1, h2]

/-- Witness for `createCacheInstance_config_error` at the concrete
configuration `{type: "", url: "redis://x"}`. -/
theorem createCacheInstance_config_error_witness :
    ∃ e, createCacheInstance ⟨some "", some "redis://x"⟩ = .error e ∧
      cachetron none ⟨some "", some "redis://x"⟩ = .error e :=
  createCacheInstance_config_error ⟨some "", some "redis://x"⟩ (Or.inl (by decide))

/-- C10: backend-type matching is case-insensitive — whenever `type` and
`url` are present and non-empty and `type` lowercases to `"redis"`
(resp. `"memcache"`), construction succeeds and yields the corresponding
adapter variant. -/
theorem createCacheInstance_case_insensitive (t u : String)
    (ht : t ≠ "") (hu : u ≠ "") :
    (jsToLowerCase t = "redis" →
      createCacheInstance ⟨some t, some u⟩ = .ok (.redis u)) ∧
    (jsToLowerCase t = "memcache" →
      createCacheInstance ⟨some t, some u⟩ = .ok (.memcache u)) := by
  constructor
  · intro h
    simp [createCacheInstance, jsFalsy, ht, hu, h]
  · intro h
    have hne : jsToLowerCase t ≠ "redis" := by
      rw [h]; decide
    simp [createCacheInstance, jsFalsy, ht, hu, h, hne]

/-- Witness for `createCacheInstance_case_insensitive` at the concrete
configurations `{type: "Redis"}` and `{type: "MEMCACHE"}`, neither literally
in the documented enum. -/
theorem createCacheInstance_case_insensitive_witness :
    createCacheInstance ⟨some "Redis", some "redis://h"⟩ = .ok (.redis "redis://h") ∧
    createCacheInstance ⟨some "MEMCACHE", some "h:11211"⟩ = .ok (.memcache "h:11211") :=
  ⟨(createCacheInstance_case_insensitive "Redis" "redis://h" (by decide) (by decide)).1
      (by decide),
   (createCacheInstance_case_insensitive "MEMCACHE" "h:11211" (by decide) (by decide)).2
      (by decide)⟩

/-! ### Migration — `migrateCache` / `cleanupCache` / config-change handler
(src/src/cache/factory.ts lines 35–93) -/

/-- A backend's key/value content: association list, newest entry first. -/
def Store := List (String × String)

/-- The empty store (a freshly constructed adapter holds no data). -/
def emptyStore : Store := []

/-- A backend `set` adds/overwrites an entry; front insertion together with
first-match lookup gives last-write-wins semantics. -/
def insertStore (s : Store) (k v : String) : Store := (k, v) :: s

/-- A backend `get` over the modelled content: first matching entry. -/
def lookupStore : Store → String → Option String
  | [], _ => none
  | (k', v) :: rest, k => if k' = k then some v else lookupStore rest k

/-- Transport-level error raised by a backend operation. -/
structure TransportErr where
  msg : String
deriving DecidableEq, Repr

/-- The body of `migrateCache`'s `for` loop without its surrounding
`try`/`catch` (factory.ts lines 38–41): for each key, `oldCache.get(key)`;
a non-null value is written into the new cache, a null value is skipped.
`getR` is the old adapter's fallible read behaviour and `setErr k v` tells
whether the new adapter's write of `k` rejects.  On the first error the loop
aborts; the error value carries the new store as populated so far, modelling
that already-performed writes persist. -/
def migrateLoopEx (getR : String → Except TransportErr (Option String))
    (setErr : String → String → Option TransportErr) :
    List String → Store → Except (TransportErr × Store) Store
  | [], s => .ok s
  | k :: ks, s =>
    match getR k with
    | .error e => .error (e, s)
    | .ok none => migrateLoopEx getR setErr ks s
    | .ok (some v) =>
      match setErr k v with
      | some e => .error (e, s)
      | none => migrateLoopEx getR setErr ks (insertStore s k v)

/-- Embedding of `migrateCache` (factory.ts lines 35–46): `oldCache.keys()`
then the copy loop, the whole body wrapped in `try`/`catch` that only logs.
Whatever fails, a store is returned (the writes already performed). -/
def migrateCache (keysR : Except TransportErr (List String))
    (getR : String → Except TransportErr (Option String))
    (setErr : String → String → Option TransportErr) (s0 : Store) : Store :=
  match keysR with
  | .error _ => s0
  | .ok keys =>
    match migrateLoopEx getR setErr keys s0 with
    | .ok s => s
    | .error (_, s) => s

/-- Observable calls made by the factory on the adapters. -/
inductive Ev where
  | keysCall
  | getCall (k : String)
  | setCall (k v : String)
  | disconnectCall
deriving DecidableEq, Repr

/-- The call trace of `migrateCache` on the error-free path: one `keys()`
call, then per key a `get` and, when the value is non-null, a `set`. -/
def migrateTrace (keys : List String) (oldGet : String → Option String) : List Ev :=
  Ev.keysCall :: keys.flatMap fun k =>
    Ev.getCall k :: (match oldGet k with
      | some v => [Ev.setCall k v]
      | none => [])

/-- The call trace of the config-change handler body after a successful
`createCacheInstance` (factory.ts lines 79–84): `migrateCache(old, new)` is
awaited first, then `cleanupCache()` issues the single `disconnect()` on the
old adapter. -/
def handlerTrace (keys : List String) (oldGet : String → Option String) : List Ev :=
  migrateTrace keys oldGet ++ [Ev.disconnectCall]

/-- Number of `disconnect()` calls in a trace. -/
def countDisconnect : List Ev → ℕ
  | [] => 0
  | Ev.disconnectCall :: rest => countDisconnect rest + 1
  | _ :: rest => countDisconnect rest

/-- Error-free read behaviour from a pure view of the old adapter. -/
def pureGet (g : String → Option String) : String → Except TransportErr (Option String) :=
  fun k => .ok (g k)

/-- Write behaviour in which no write rejects. -/
def noSetErr : String → String → Option TransportErr := fun _ _ => none

theorem migrateLoopEx_pure_lookup (g : String → Option String) :
    ∀ (keys : List String) (s s' : Store) (k : String),
      migrateLoopEx (pureGet g) noSetErr keys s = .ok s' →
      lookupStore s' k =
        if k ∈ keys ∧ (g k).isSome then g k else lookupStore s k := by
  intro keys
  induction keys with
  | nil =>
    intro s s' k h
    cases h
    simp
  | cons k0 ks ih =>
    intro s s' k h
    by_cases hk : k = k0
    · subst hk
      cases hg : g k with
      | none =>
        rw [show migrateLoopEx (pureGet g) noSetErr (k :: ks) s =
            migrateLoopEx (pureGet g) noSetErr ks s by
          simp [migrateLoopEx, pureGet, hg]] at h
        rw [ih s s' k h]
        simp [hg]
      | some v =>
        rw [show migrateLoopEx (pureGet g) noSetErr (k :: ks) s =
            migrateLoopEx (pureGet g) noSetErr ks (insertStore s k v) by
          simp [migrateLoopEx, pureGet, hg, noSetErr]] at h
        rw [ih (insertStore s k v) s' k h]
        simp [hg, insertStore, lookupStore]
    · cases hg : g k0 with
      | none =>
        rw [show migrateLoopEx (pureGet g) noSetErr (k0 :: ks) s =
            migrateLoopEx (pureGet g) noSetErr ks s by
          simp [migrateLoopEx, pureGet, hg]] at h
        rw [ih s s' k h]
        simp [List.mem_cons, hk]
      | some v =>
        rw [show migrateLoopEx (pureGet g) noSetErr (k0 :: ks) s =
            migrateLoopEx (pureGet g) noSetErr ks (insertStore s k0 v) by
          simp [migrateLoopEx, pureGet, hg, noSetErr]] at h
        rw [ih (insertStore s k0 v) s' k h]
        simp [List.mem_cons, hk, insertStore, lookupStore, Ne.symm hk]

theorem migrateLoopEx_pure_ok (g : String → Option String) :
    ∀ (keys : List String) (s : Store),
      ∃ s', migrateLoopEx (pureGet g) noSetErr keys s = .ok s' := by
  intro keys
  induction keys with
  | nil => intro s; exact ⟨s, rfl⟩
  | cons k0 ks ih =>
    intro s
    cases hg : g k0 with
    | none =>
      obtain ⟨s', hs'⟩ := ih s
      exact ⟨s', by simp [migrateLoopEx, pureGet, hg, hs']⟩
    | some v =>
      obtain ⟨s', hs'⟩ := ih (insertStore s k0 v)
      exact ⟨s', by simp [migrateLoopEx, pureGet, hg, noSetErr, hs']⟩

theorem countDisconnect_append_one (l : List Ev) :
    countDisconnect (l ++ [Ev.disconnectCall]) = countDisconnect l + 1 := by
  induction l with
  | nil => rfl
  | cons e rest ih =>
    cases e <;> simp [countDisconnect, ih]

theorem countDisconnect_migrateTrace (keys : List String)
    (oldGet : String → Option String) :
    countDisconnect (migrateTrace keys oldGet) = 0 := by
  unfold migrateTrace
  rw [show countDisconnect (Ev.keysCall :: keys.flatMap fun k =>
      Ev.getCall k :: (match oldGet k with
        | some v => [Ev.setCall k v]
        | none => [])) = countDisconnect (keys.flatMap fun k =>
      Ev.getCall k :: (match oldGet k with
        | some v => [Ev.setCall k v]
        | none => [])) from rfl]
  induction keys with
  | nil => rfl
  | cons k0 ks ih =>
    cases hg : oldGet k0 <;>
      simp only [List.flatMap_cons, List.cons_append, hg] <;>
      simpa [countDisconnect] using ih

/-- C2: after an error-free migration from an old adapter into a fresh new
adapter, every enumerated key whose read returned a non-null value is present
in the new adapter with that value, keys whose read returned null (and keys
never enumerated) are absent from the new adapter, and the handler trace
contains exactly one `disconnect()` on the old adapter, occurring only after
the whole copy loop. -/
theorem migrate_copies_nonnull_keys (keys : List String)
    (oldGet : String → Option String) :
    (∀ k v, k ∈ keys → oldGet k = some v →
      lookupStore (migrateCache (.ok keys) (pureGet oldGet) noSetErr emptyStore) k
        = some v) ∧
    (∀ k, oldGet k = none →
      lookupStore (migrateCache (.ok keys) (pureGet oldGet) noSetErr emptyStore) k
        = none) ∧
    countDisconnect (handlerTrace keys oldGet) = 1 ∧
    countDisconnect (migrateTrace keys oldGet) = 0 := by
  obtain ⟨s', hs'⟩ := migrateLoopEx_pure_ok oldGet keys emptyStore
  have hmig : migrateCache (.ok keys) (pureGet oldGet) noSetErr emptyStore = s' := by
    simp [migrateCache, hs']
  have htail : countDisconnect (migrateTrace keys oldGet) = 0 :=
    countDisconnect_migrateTrace keys oldGet
  refine ⟨?_, ?_, ?_, htail⟩
  · intro k v hk hv
    have hlk := migrateLoopEx_pure_lookup oldGet keys emptyStore s' k hs'
    rw [hmig, hlk, if_pos ⟨hk, by simp [hv]⟩, hv]
  · intro k hv
    have hlk := migrateLoopEx_pure_lookup oldGet keys emptyStore s' k hs'
    rw [hmig, hlk, if_neg (by simp [hv])]
    simp [emptyStore, lookupStore]
  · unfold handlerTrace
    rw [countDisconnect_append_one, htail]

/-- Witness for `migrate_copies_nonnull_keys` at the concrete old adapter
holding `{"x": "1", "y": "2"}` with `"z"` unset. -/
theorem migrate_copies_nonnull_keys_witness :
    lookupStore
      (migrateCache (.ok ["x", "y"])
        (pureGet fun k => if k = "x" then some "1" else if k = "y" then some "2" else none)
        noSetErr emptyStore) "x" = some "1" ∧
    lookupStore
      (migrateCache (.ok ["x", "y"])
        (pureGet fun k => if k = "x" then some "1" else if k = "y" then some "2" else none)
        noSetErr emptyStore) "z" = none ∧
    countDisconnect
      (handlerTrace ["x", "y"]
        (fun k => if k = "x" then some "1" else if k = "y" then some "2" else none)) = 1 := by
  obtain ⟨h1, h2, h3, -⟩ := migrate_copies_nonnull_keys ["x", "y"]
    (fun k => if k = "x" then some "1" else if k = "y" then some "2" else none)
  exact ⟨h1 "x" "1" (by decide) (by decide), h2 "z" (by decide), h3⟩

/-- Final state of the config-change handler body: the content of the newly
installed adapter, how many times the old adapter's `disconnect()` was
invoked, and whether the new adapter was installed as the active singleton. -/
structure HandlerResult where
  newStore : Store
  oldDisconnects : ℕ
  activeIsNew : Bool

/-- Embedding of the debounced config-change handler body after a successful
`createCacheInstance` (factory.ts lines 79–85): `migrateCache` runs with its
internal `try`/`catch` (so it always completes); `cleanupCache` (lines 49–63)
then calls the old adapter's `disconnect()` exactly once inside its own
`try`/`catch`, so a disconnect rejection is also swallowed; finally the new
adapter is installed as the active singleton.  No error from these steps
escapes to the watcher's caller. -/
def configChangeHandler (keysR : Except TransportErr (List String))
    (getR : String → Except TransportErr (Option String))
    (setErr : String → String → Option TransportErr)
    (disconnectR : Except TransportErr Unit) : Except TransportErr HandlerResult :=
  let migrated := migrateCache keysR getR setErr emptyStore
  let disconnects : ℕ := match disconnectR with
    | .ok _ => 1
    | .error _ => 1
  .ok { newStore := migrated, oldDisconnects := disconnects, activeIsNew := true }

/-- C3: whenever the migration copy loop raises an error — during key
enumeration, a read, or a write — the error is caught inside `migrateCache`
and does not propagate out of the config-change handler, which still
disconnects the old adapter (once) and installs the new adapter as the
active singleton. -/
theorem handler_fail_open (keysR : Except TransportErr (List String))
    (getR : String → Except TransportErr (Option String))
    (setErr : String → String → Option TransportErr)
    (disconnectR : Except TransportErr Unit)
    (_herr : (∃ e, keysR = .error e) ∨
      ∃ keys e sp, keysR = .ok keys ∧
        migrateLoopEx getR setErr keys emptyStore = .error (e, sp)) :
    ∃ r, configChangeHandler keysR getR setErr disconnectR = .ok r ∧
      r.oldDisconnects = 1 ∧ r.activeIsNew = true := by
  refine ⟨{ newStore := migrateCache keysR getR setErr emptyStore
            oldDisconnects := 1
            activeIsNew := true }, ?_, rfl, rfl⟩
  unfold configChangeHandler
  cases disconnectR <;> rfl

/-- Witness for `handler_fail_open` with one enumerated key whose read
rejects with a transport error. -/
theorem handler_fail_open_witness :
    ∃ r, configChangeHandler (.ok ["x"]) (fun _ => .error ⟨"boom"⟩) noSetErr
        (.ok ()) = .ok r ∧ r.oldDisconnects = 1 ∧ r.activeIsNew = true :=
  handler_fail_open (.ok ["x"]) (fun _ => .error ⟨"boom"⟩) noSetErr (.ok ())
    (Or.inr ⟨["x"], ⟨"boom"⟩, emptyStore, rfl, rfl⟩)

/-! ### Metrics — `MemcacheCache.calculateMetrics` (MemcacheCache.ts lines
232–279) and `RedisCache.getCacheMetrics` (src/unnamed/part_004 lines
215–273) -/

/-- Embedding of `safeNumber` (identical in both adapters): a negative value
coerces to 0.  In the rational model every value is numeric and finite, so the
`isNaN`/`isFinite` guards of the source are vacuous. -/
def safeNumber (q : ℚ) : ℚ := if 0 ≤ q then q else 0

/-- Embedding of `safePrecision` (identical in both adapters):
`Number(value.toFixed(decimals))`, with the `isFinite` guard vacuous in ℚ. -/
def safePrecision (q : ℚ) (decimals : ℕ) : ℚ := jsToFixed decimals q

/-- Raw memcached `stats` fields consumed by `calculateMetrics`. -/
structure MemcacheRawStats where
  get_hits : ℚ
  get_misses : ℚ
  bytes : ℚ
  evictions : ℚ

/-- The adapter's `previousStats` record (MemcacheCache.ts lines 23–28). -/
structure MemcachePrevStats where
  getHits : ℚ
  getMisses : ℚ
  evictions : ℚ
  lastCheckTime : ℚ

/-- The `CacheChartData` record of MemcacheCache.ts (numeric fields; the
`time` string is irrelevant to the claims and omitted). -/
structure MemcacheChartData where
  hitRatio : ℚ
  missRatio : ℚ
  hitRatioLifetime : ℚ
  missRatioLifetime : ℚ
  cacheSize : ℚ
  dataChangeRate : ℚ

/-- Embedding of `MemcacheCache.calculateMetrics` (lines 232–279), also
returning the updated `previousStats` (lines 263–268).  `Date.now()` is the
parameter `now` in milliseconds. -/
def calculateMetrics (stats : MemcacheRawStats) (prev : MemcachePrevStats)
    (now : ℚ) : MemcacheChartData × MemcachePrevStats :=
  let getHits := safeNumber stats.get_hits
  let getMisses := safeNumber stats.get_misses
  let bytes := safeNumber stats.bytes
  let evictions := safeNumber stats.evictions
  let hitsDelta := max 0 (getHits - prev.getHits)
  let missesDelta := max 0 (getMisses - prev.getMisses)
  let totalDelta := hitsDelta + missesDelta
  let hitRatio := if 0 < totalDelta then hitsDelta / totalDelta else 0
  let missRatio := if 0 < totalDelta then missesDelta / totalDelta else 0
  let totalLifetime := getHits + getMisses
  let hitRatioLifetime := if 0 < totalLifetime then getHits / totalLifetime else 0
  let missRatioLifetime := if 0 < totalLifetime then getMisses / totalLifetime else 0
  let cacheSizeMB := bytes / (1024 * 1024)
  let minutesPassed := (now - prev.lastCheckTime) / 60000
  let evictionsDelta := max 0 (evictions - prev.evictions)
  let dataChangeRate := if 0 < minutesPassed then evictionsDelta / minutesPassed else 0
  ({ hitRatio := safePrecision hitRatio 3
     missRatio := safePrecision missRatio 3
     hitRatioLifetime := safePrecision hitRatioLifetime 3
     missRatioLifetime := safePrecision missRatioLifetime 3
     cacheSize := safePrecision cacheSizeMB 2
     dataChangeRate := safePrecision dataChangeRate 2 },
   { getHits := getHits, getMisses := getMisses, evictions := evictions
     lastCheckTime := now })

/-- Raw Redis `INFO` fields consumed by `getCacheMetrics`. -/
structure RedisRawInfo where
  used_memory : ℚ
  keyspace_hits : ℚ
  keyspace_misses : ℚ
  evicted_keys : ℚ

/-- The Redis adapter's `previousStats` counters (part_004 lines 105–115;
the access/eviction history sub-fields are irrelevant to the claims). -/
structure RedisPrevStats where
  keyspaceHits : ℚ
  keyspaceMisses : ℚ
  evictedKeys : ℚ
  lastCheckTime : ℚ

/-- The `CacheChartData` record of RedisCache (part_004 lines 5–15). -/
structure RedisChartData where
  hitRatio : ℚ
  missRatio : ℚ
  hitRatioLifetime : ℚ
  missRatioLifetime : ℚ
  cacheSize : ℚ
  dataChangeRate : ℚ
  keyCount : ℚ
  avgKeySize : ℚ

/-- Embedding of `RedisCache.getCacheMetrics` (part_004 lines 215–273),
returning the metrics and the updated counters. -/
def getCacheMetrics (info : RedisRawInfo) (dbSize : ℚ) (prev : RedisPrevStats)
    (now : ℚ) : RedisChartData × RedisPrevStats :=
  let usedMemory := safeNumber info.used_memory
  let avgKeySize := if 0 < dbSize then usedMemory / dbSize else 0
  let keyspaceHits := safeNumber info.keyspace_hits
  let keyspaceMisses := safeNumber info.keyspace_misses
  let evictedKeys := safeNumber info.evicted_keys
  let hitsDelta := max 0 (keyspaceHits - prev.keyspaceHits)
  let missesDelta := max 0 (keyspaceMisses - prev.keyspaceMisses)
  let totalDelta := hitsDelta + missesDelta
  let hitRatio := if 0 < totalDelta then hitsDelta / totalDelta else 0
  let missRatio := if 0 < totalDelta then missesDelta / totalDelta else 0
  let totalLifetime := keyspaceHits + keyspaceMisses
  let hitRatioLifetime := if 0 < totalLifetime then keyspaceHits / totalLifetime else 0
  let missRatioLifetime := if 0 < totalLifetime then keyspaceMisses / totalLifetime else 0
  let minutesPassed := (now - prev.lastCheckTime) / 60000
  let evictionsDelta := max 0 (evictedKeys - prev.evictedKeys)
  let dataChangeRate := if 0 < minutesPassed then evictionsDelta / minutesPassed else 0
  ({ hitRatio := safePrecision hitRatio 3
     missRatio := safePrecision missRatio 3
     hitRatioLifetime := safePrecision hitRatioLifetime 3
     missRatioLifetime := safePrecision missRatioLifetime 3
     cacheSize := safePrecision (usedMemory / (1024 * 1024)) 2
     dataChangeRate := safePrecision dataChangeRate 2
     keyCount := dbSize
     avgKeySize := safePrecision avgKeySize 0 },
   { keyspaceHits := keyspaceHits, keyspaceMisses := keyspaceMisses
     evictedKeys := evictedKeys, lastCheckTime := now })

theorem jsToFixed_zero (d : ℕ) : jsToFixed d 0 = 0 := by
  unfold jsToFixed
  norm_num

theorem jsToFixed_sum_one {x y : ℚ} (hxy : x + y = 1) :
    |jsToFixed 3 x + jsToFixed 3 y - 1| ≤ 1/1000 := by
  have hy : y = 1 - x := by linarith
  subst hy
  unfold jsToFixed
  have e : (10 : ℚ) ^ (3 : ℕ) = 1000 := by norm_num
  rw [e]
  have h1 : (1 - x) * 1000 + 1/2 = -(x * 1000 + 1/2) + (1001 : ℤ) := by
    push_cast
    ring
  rw [h1, Int.floor_add_int, Int.floor_neg]
  have h2 : (⌊x * 1000 + 1/2⌋ : ℚ) ≤ (⌈x * 1000 + 1/2⌉ : ℚ) := by
    exact_mod_cast Int.floor_le_ceil (x * 1000 + 1/2)
  have h3 : (⌈x * 1000 + 1/2⌉ : ℚ) ≤ (⌊x * 1000 + 1/2⌋ : ℚ) + 1 := by
    exact_mod_cast Int.ceil_le_floor_add_one (x * 1000 + 1/2)
  rw [abs_le]
  constructor <;> push_cast <;> linarith

/-- C7: in both adapters the hit/miss deltas are clamped at zero with
`max 0 (current − previous)`, the reported rolling hit ratio is the rounded
`hitsDelta / (hitsDelta + missesDelta)` with value 0 when that denominator is
0, and in particular a decrease of both cumulative counters between samples
(a backend counter reset) yields rolling ratios of 0, never a negative
value. -/
theorem metrics_delta_clamped
    (stats : MemcacheRawStats) (prev : MemcachePrevStats) (now : ℚ)
    (info : RedisRawInfo) (dbSize : ℚ) (rprev : RedisPrevStats) (rnow : ℚ) :
    ((calculateMetrics stats prev now).1.hitRatio =
      safePrecision
        (if 0 < max 0 (safeNumber stats.get_hits - prev.getHits) +
              max 0 (safeNumber stats.get_misses - prev.getMisses) then
          max 0 (safeNumber stats.get_hits - prev.getHits) /
            (max 0 (safeNumber stats.get_hits - prev.getHits) +
             max 0 (safeNumber stats.get_misses - prev.getMisses))
        else 0) 3) ∧
    (safeNumber stats.get_hits ≤ prev.getHits →
      safeNumber stats.get_misses ≤ prev.getMisses →
      (calculateMetrics stats prev now).1.hitRatio = 0 ∧
      (calculateMetrics stats prev now).1.missRatio = 0) ∧
    ((getCacheMetrics info dbSize rprev rnow).1.hitRatio =
      safePrecision
        (if 0 < max 0 (safeNumber info.keyspace_hits - rprev.keyspaceHits) +
              max 0 (safeNumber info.keyspace_misses - rprev.keyspaceMisses) then
          max 0 (safeNumber info.keyspace_hits - rprev.keyspaceHits) /
            (max 0 (safeNumber info.keyspace_hits - rprev.keyspaceHits) +
             max 0 (safeNumber info.keyspace_misses - rprev.keyspaceMisses))
        else 0) 3) ∧
    (safeNumber info.keyspace_hits ≤ rprev.keyspaceHits →
      safeNumber info.keyspace_misses ≤ rprev.keyspaceMisses →
      (getCacheMetrics info dbSize rprev rnow).1.hitRatio = 0 ∧
      (getCacheMetrics info dbSize rprev rnow).1.missRatio = 0) := by
  refine ⟨rfl, ?_, rfl, ?_⟩
  · intro hh hm
    have hd0 : max 0 (safeNumber stats.get_hits - prev.getHits) = 0 :=
      max_eq_left (by linarith)
    have md0 : max 0 (safeNumber stats.get_misses - prev.getMisses) = 0 :=
      max_eq_left (by linarith)
    constructor
    · show safePrecision
        (if 0 < max 0 (safeNumber stats.get_hits - prev.getHits) +
              max 0 (safeNumber stats.get_misses - prev.getMisses) then
          max 0 (safeNumber stats.get_hits - prev.getHits) /
            (max 0 (safeNumber stats.get_hits - prev.getHits) +
             max 0 (safeNumber stats.get_misses - prev.getMisses))
        else 0) 3 = 0
      rw [hd0, md0]
      simpa [safePrecision] using jsToFixed_zero 3
    · show safePrecision
        (if 0 < max 0 (safeNumber stats.get_hits - prev.getHits) +
              max 0 (safeNumber stats.get_misses - prev.getMisses) then
          max 0 (safeNumber stats.get_misses - prev.getMisses) /
            (max 0 (safeNumber stats.get_hits - prev.getHits) +
             max 0 (safeNumber stats.get_misses - prev.getMisses))
        else 0) 3 = 0
      rw [hd0, md0]
      simpa [safePrecision] using jsToFixed_zero 3
  · intro hh hm
    have hd0 : max 0 (safeNumber info.keyspace_hits - rprev.keyspaceHits) = 0 :=
      max_eq_left (by linarith)
    have md0 : max 0 (safeNumber info.keyspace_misses - rprev.keyspaceMisses) = 0 :=
      max_eq_left (by linarith)
    constructor
    · show safePrecision
        (if 0 < max 0 (safeNumber info.keyspace_hits - rprev.keyspaceHits) +
              max 0 (safeNumber info.keyspace_misses - rprev.keyspaceMisses) then
          max 0 (safeNumber info.keyspace_hits - rprev.keyspaceHits) /
            (max 0 (safeNumber info.keyspace_hits - rprev.keyspaceHits) +
             max 0 (safeNumber info.keyspace_misses - rprev.keyspaceMisses))
        else 0) 3 = 0
      rw [hd0, md0]
      simpa [safePrecision] using jsToFixed_zero 3
    · show safePrecision
        (if 0 < max 0 (safeNumber info.keyspace_hits - rprev.keyspaceHits) +
              max 0 (safeNumber info.keyspace_misses - rprev.keyspaceMisses) then
          max 0 (safeNumber info.keyspace_misses - rprev.keyspaceMisses) /
            (max 0 (safeNumber info.keyspace_hits - rprev.keyspaceHits) +
             max 0 (safeNumber info.keyspace_misses - rprev.keyspaceMisses))
        else 0) 3 = 0
      rw [hd0, md0]
      simpa [safePrecision] using jsToFixed_zero 3

/-- Witness for `metrics_delta_clamped` at concrete samples in which both
adapters' cumulative counters decreased (backend restart): the rolling ratios
come out 0. -/
theorem metrics_delta_clamped_witness :
    (calculateMetrics ⟨5, 3, 0, 0⟩ ⟨10, 7, 0, 0⟩ 60000).1.hitRatio = 0 ∧
    (getCacheMetrics ⟨0, 5, 3, 0⟩ 0 ⟨10, 7, 0, 0⟩ 60000).1.hitRatio = 0 := by
  obtain ⟨-, h2, -, h4⟩ := metrics_delta_clamped ⟨5, 3, 0, 0⟩ ⟨10, 7, 0, 0⟩ 60000
    ⟨0, 5, 3, 0⟩ 0 ⟨10, 7, 0, 0⟩ 60000
  refine ⟨(h2 ?_ ?_).1, (h4 ?_ ?_).1⟩ <;> norm_num [safeNumber]

/-- C8: whenever the (always non-negative) hit and miss deltas have a
positive total, the rolling hit and miss ratios reported by each adapter sum
to 1 up to the 3-decimal rounding each ratio undergoes, i.e. the sum differs
from 1 by at most `1/1000`. -/
theorem rolling_ratios_sum_to_one
    (stats : MemcacheRawStats) (prev : MemcachePrevStats) (now : ℚ)
    (info : RedisRawInfo) (dbSize : ℚ) (rprev : RedisPrevStats) (rnow : ℚ)
    (hm : 0 < max 0 (safeNumber stats.get_hits - prev.getHits) +
          max 0 (safeNumber stats.get_misses - prev.getMisses))
    (hr : 0 < max 0 (safeNumber info.keyspace_hits - rprev.keyspaceHits) +
          max 0 (safeNumber info.keyspace_misses - rprev.keyspaceMisses)) :
    |(calculateMetrics stats prev now).1.hitRatio +
      (calculateMetrics stats prev now).1.missRatio - 1| ≤ 1/1000 ∧
    |(getCacheMetrics info dbSize rprev rnow).1.hitRatio +
      (getCacheMetrics info dbSize rprev rnow).1.missRatio - 1| ≤ 1/1000 := by
  constructor
  · have hsum : (if 0 < max 0 (safeNumber stats.get_hits - prev.getHits) +
          max 0 (safeNumber stats.get_misses - prev.getMisses) then
        max 0 (safeNumber stats.get_hits - prev.getHits) /
          (max 0 (safeNumber stats.get_hits - prev.getHits) +
           max 0 (safeNumber stats.get_misses - prev.getMisses))
      else 0) +
      (if 0 < max 0 (safeNumber stats.get_hits - prev.getHits) +
          max 0 (safeNumber stats.get_misses - prev.getMisses) then
        max 0 (safeNumber stats.get_misses - prev.getMisses) /
          (max 0 (safeNumber stats.get_hits - prev.getHits) +
           max 0 (safeNumber stats.get_misses - prev.getMisses))
      else 0) = 1 := by
      rw [if_pos hm, if_pos hm, div_add_div_same, div_self (ne_of_gt hm)]
    exact jsToFixed_sum_one hsum
  · have hsum : (if 0 < max 0 (safeNumber info.keyspace_hits - rprev.keyspaceHits) +
          max 0 (safeNumber info.keyspace_misses - rprev.keyspaceMisses) then
        max 0 (safeNumber info.keyspace_hits - rprev.keyspaceHits) /
          (max 0 (safeNumber info.keyspace_hits - rprev.keyspaceHits) +
           max 0 (safeNumber info.keyspace_misses - rprev.keyspaceMisses))
      else 0) +
      (if 0 < max 0 (safeNumber info.keyspace_hits - rprev.keyspaceHits) +
          max 0 (safeNumber info.keyspace_misses - rprev.keyspaceMisses) then
        max 0 (safeNumber info.keyspace_misses - rprev.keyspaceMisses) /
          (max 0 (safeNumber info.keyspace_hits - rprev.keyspaceHits) +
           max 0 (safeNumber info.keyspace_misses - rprev.keyspaceMisses))
      else 0) = 1 := by
      rw [if_pos hr, if_pos hr, div_add_div_same, div_self (ne_of_gt hr)]
    exact jsToFixed_sum_one hsum

/-- Witness for `rolling_ratios_sum_to_one` at concrete samples with one hit
and two misses since the previous check on each backend. -/
theorem rolling_ratios_sum_to_one_witness :
    |(calculateMetrics ⟨11, 9, 0, 0⟩ ⟨10, 7, 0, 0⟩ 60000).1.hitRatio +
      (calculateMetrics ⟨11, 9, 0, 0⟩ ⟨10, 7, 0, 0⟩ 60000).1.missRatio - 1| ≤ 1/1000 ∧
    |(getCacheMetrics ⟨0, 11, 9, 0⟩ 0 ⟨10, 7, 0, 0⟩ 60000).1.hitRatio +
      (getCacheMetrics ⟨0, 11, 9, 0⟩ 0 ⟨10, 7, 0, 0⟩ 60000).1.missRatio - 1| ≤ 1/1000 :=
  rolling_ratios_sum_to_one ⟨11, 9, 0, 0⟩ ⟨10, 7, 0, 0⟩ 60000
    ⟨0, 11, 9, 0⟩ 0 ⟨10, 7, 0, 0⟩ 60000
    (by norm_num [safeNumber]) (by norm_num [safeNumber])

/-! ### Monitor — `ML_Metrics` / `getLatestMLMetrics` (src/src/utils/Monitor.ts) -/

/-- Embedding of the `ML_Metrics` assignment performed on every metrics
sample (Monitor.ts line 103):
`ML_Metrics = [stats.hitRatio, stats.missRatio, stats.cacheSize, stats.dataChangeRate]`,
taking the fields of the snapshot just returned by the active adapter's
`getCacheMetrics()`. -/
def updateMLMetrics (stats : MemcacheChartData) : List ℚ :=
  [stats.hitRatio, stats.missRatio, stats.cacheSize, stats.dataChangeRate]

/-- Embedding of `getLatestMLMetrics` (Monitor.ts lines 114–119): return the
stored vector when it has length 4, else `[0]`. -/
def getLatestMLMetrics (ml : List ℚ) : List ℚ :=
  if ml.length = 4 then ml else [0]

/-- C5 counterexample: after a sample in which the since-last-check traffic
was 0 hits and 10 misses on a lifetime of 10 hits and 10 misses, the stored
feature vector starts with the rolling hit ratio 0, while the lifetime hit
ratio of the same snapshot is 1/2 — the vector does not carry the lifetime
ratios. -/
theorem ml_feature_vector_uses_rolling_ratios :
    updateMLMetrics (calculateMetrics ⟨10, 10, 0, 0⟩ ⟨10, 0, 0, 0⟩ 60000).1
      = [0, 1, 0, 0] ∧
    (calculateMetrics ⟨10, 10, 0, 0⟩ ⟨10, 0, 0, 0⟩ 60000).1.hitRatioLifetime
      = 1/2 ∧
    (calculateMetrics ⟨10, 10, 0, 0⟩ ⟨10, 0, 0, 0⟩ 60000).1.missRatioLifetime
      = 1/2 ∧
    ((0 : ℚ) ≠ 1/2) := by
  refine ⟨?_, ?_, ?_, by norm_num⟩ <;>
    norm_num [updateMLMetrics, calculateMetrics, safeNumber, safePrecision,
      jsToFixed, max_def]

/-- C5 (amended): the feature vector consumed on each write when adaptive TTL
is enabled is the ordered 4-tuple
`[hitRatio, missRatio, cacheSize, dataChangeRate]` of the latest snapshot —
the *rolling* (since-last-sample) hit and miss ratios, not the lifetime
ratios; it always has length 4, so `getLatestMLMetrics` hands it through
unchanged to the write path. -/
theorem ml_feature_vector_layout (stats : MemcacheRawStats)
    (prev : MemcachePrevStats) (now : ℚ) :
    getLatestMLMetrics
        (updateMLMetrics (calculateMetrics stats prev now).1) =
      updateMLMetrics (calculateMetrics stats prev now).1 ∧
    updateMLMetrics (calculateMetrics stats prev now).1 =
      [(calculateMetrics stats prev now).1.hitRatio,
       (calculateMetrics stats prev now).1.missRatio,
       (calculateMetrics stats prev now).1.cacheSize,
       (calculateMetrics stats prev now).1.dataChangeRate] ∧
    (calculateMetrics stats prev now).1.hitRatio =
      safePrecision
        (if 0 < max 0 (safeNumber stats.get_hits - prev.getHits) +
              max 0 (safeNumber stats.get_misses - prev.getMisses) then
          max 0 (safeNumber stats.get_hits - prev.getHits) /
            (max 0 (safeNumber stats.get_hits - prev.getHits) +
             max 0 (safeNumber stats.get_misses - prev.getMisses))
        else 0) 3 :=
  ⟨by simp [getLatestMLMetrics, updateMLMetrics], rfl, rfl⟩

/-! ### Adapter write/read error handling — `RedisCache.set`/`get`
(src/unnamed/part_004 lines 129–156) and `MemcacheCache.set`/`get`
(MemcacheCache.ts lines 54–98) -/

/-- Fallible behaviour of the underlying backend client: read result and
write result (the write takes the effective TTL passed by the adapter). -/
structure Backend where
  getR : String → Except TransportErr (Option String)
  setR : String → String → ℚ → Except TransportErr Unit

/-- Embedding of `RedisCache.set` (part_004 lines 142–156): the backend write
sits in a `try`/`catch` whose handler only logs, so the promise always
resolves — a write error is swallowed. -/
def redisSet (b : Backend) (k v : String) (ttl : ℚ) : Except TransportErr Unit :=
  match b.setR k v ttl with
  | .ok _ => .ok ()
  | .error _ => .ok ()

/-- Embedding of `RedisCache.get` (part_004 lines 129–140): a backend error
is caught and `null` is returned. -/
def redisGet (b : Backend) (k : String) : Option String :=
  match b.getR k with
  | .ok v => v
  | .error _ => none

/-- Embedding of `MemcacheCache.set` (MemcacheCache.ts lines 70–98): first
the effective TTL is chosen — when the ML metric vector has length 4 and the
awaited prediction is a positive number `p`, the TTL becomes `Math.floor(p)`,
otherwise the caller's `ttl` stands — then the backend write runs and an
error is passed to `reject`, i.e. propagated to the caller. -/
def memcacheSet (b : Backend) (mlMetric : List ℚ) (predicted : Option ℚ)
    (ttl : ℚ) (k v : String) : Except TransportErr Unit :=
  let effTtl := if mlMetric.length ≠ 4 then ttl
    else match predicted with
      | some p => if 0 < p then ((⌊p⌋ : ℤ) : ℚ) else ttl
      | none => ttl
  match b.setR k v effTtl with
  | .ok _ => .ok ()
  | .error e => .error e

/-- Embedding of `MemcacheCache.get` (MemcacheCache.ts lines 54–68): the
callback resolves `null` on error. -/
def memcacheGet (b : Backend) (k : String) : Option String :=
  match b.getR k with
  | .ok d => d
  | .error _ => none

/-- C6: exactly one adapter variant propagates backend write errors — the
memcache variant rejects with the backend's error whenever the write fails,
while the redis variant always resolves — and for both variants `get` never
propagates a backend error, returning `null` instead. -/
theorem set_error_asymmetry :
    (∀ (b : Backend) (k v : String) (ttl : ℚ), redisSet b k v ttl = .ok ()) ∧
    (∀ (b : Backend) (ml : List ℚ) (pr : Option ℚ) (ttl : ℚ) (k v : String)
      (e : TransportErr), (∀ t, b.setR k v t = .error e) →
      memcacheSet b ml pr ttl k v = .error e) ∧
    (∀ (b : Backend) (k : String) (e : TransportErr), b.getR k = .error e →
      redisGet b k = none ∧ memcacheGet b k = none) := by
  refine ⟨?_, ?_, ?_⟩
  · intro b k v ttl
    unfold redisSet
    cases b.setR k v ttl <;> rfl
  · intro b ml pr ttl k v e h
    simp [memcacheSet, h]
  · intro b k e h
    unfold redisGet memcacheGet
    rw [h]
    exact ⟨rfl, rfl⟩

/-- Witness for `set_error_asymmetry` at a backend whose every operation
rejects with a transport error. -/
theorem set_error_asymmetry_witness :
    memcacheSet ⟨fun _ => .error ⟨"io"⟩, fun _ _ _ => .error ⟨"io"⟩⟩ [] none 0 "k" "v"
      = .error ⟨"io"⟩ ∧
    redisGet ⟨fun _ => .error ⟨"io"⟩, fun _ _ _ => .error ⟨"io"⟩⟩ "k" = none :=
  ⟨set_error_asymmetry.2.1 ⟨fun _ => .error ⟨"io"⟩, fun _ _ _ => .error ⟨"io"⟩⟩
      [] none 0 "k" "v" ⟨"io"⟩ (fun _ => rfl),
   (set_error_asymmetry.2.2 ⟨fun _ => .error ⟨"io"⟩, fun _ _ _ => .error ⟨"io"⟩⟩
      "k" ⟨"io"⟩ rfl).1⟩

end Cachetron
